import Mathlib

/-!
Verification of the real-time live-audio streaming and turn-transcription
subsystem of the LidiaAICoach repository.

The embedding follows `src/hooks/useGeminiLive.ts` (the Live Session
Manager hook: connection lifecycle, PCM codec helpers, playback
scheduling, turn accumulation) and `src/services/geminiService.ts`
(`getAiInstance`).  Audio samples are modelled as exact rationals, machine
16-bit integers as `ℤ` with explicit wrap-around modulo 2^16, and the
event-driven hook as a step function from events to a new state plus a
list of observable side effects (transport opens/sends/closes, callback
invocations, playback scheduling actions).
-/

namespace LidiaLive

/-! ### String containment (JS `String.prototype.includes`) -/

/-- Test that `needle` is a prefix of `hay`, on character lists. -/
def isPrefixChars : List Char → List Char → Bool
  | [], _ => true
  | _ :: _, [] => false
  | a :: as, b :: bs => a == b && isPrefixChars as bs

/-- Test that `needle` occurs somewhere inside `hay`, on character lists. -/
def containsChars : List Char → List Char → Bool
  | needle, [] => isPrefixChars needle []
  | needle, b :: bs => isPrefixChars needle (b :: bs) || containsChars needle bs

/-- JS `hay.includes(needle)`. -/
def strContains (hay needle : String) : Bool :=
  containsChars needle.toList hay.toList

/-! ### PCM codec (`createBlob` / `decodeAudioData` in useGeminiLive.ts)

`createBlob` writes `data[i] * 32768` into an `Int16Array`: the JS
assignment truncates toward zero and wraps modulo 2^16 into the signed
16-bit range, with no clamping.  `decodeAudioData` reinterprets the bytes
as signed 16-bit integers and divides by 32768.  We model the sample
values directly (the little-endian byte and base64 transport layers are
bijections and cancel in the round trip). -/

/-- JS `ToInteger`: truncation of a rational toward zero. -/
def jsTrunc (q : ℚ) : ℤ := if 0 ≤ q then ⌊q⌋ else ⌈q⌉

/-- JS `ToInt16`: wrap an integer into `[-32768, 32767]` modulo 2^16,
as an `Int16Array` element assignment does. -/
def wrapInt16 (v : ℤ) : ℤ := (v + 32768) % 65536 - 32768

/-- Sample conversion of `createBlob`: multiply by 32768, truncate to a
16-bit signed integer with wrap-around and no clamping. -/
def floatToPcm16 (xs : List ℚ) : List ℤ :=
  xs.map (fun x => wrapInt16 (jsTrunc (x * 32768)))

/-- Sample conversion of `decodeAudioData` (mono): divide each 16-bit
value by 32768. -/
def pcm16ToFloat (vs : List ℤ) : List ℚ :=
  vs.map (fun v => (v : ℚ) / 32768)

/-! #### Codec facts -/

theorem jsTrunc_le_of_nonneg {q : ℚ} (h : 0 ≤ q) :
    (jsTrunc q : ℚ) ≤ q := by
  simp only [jsTrunc, if_pos h]
  exact Int.floor_le q

theorem wrapInt16_eq_self {v : ℤ} (h1 : -32768 ≤ v) (h2 : v ≤ 32767) :
    wrapInt16 v = v := by
  unfold wrapInt16
  rw [Int.emod_eq_of_lt (by omega) (by omega)]
  omega

/-- Truncation toward zero moves a rational by less than one. -/
theorem abs_sub_jsTrunc_le (q : ℚ) : |q - (jsTrunc q : ℚ)| ≤ 1 := by
  unfold jsTrunc
  by_cases h : 0 ≤ q
  · rw [if_pos h, abs_of_nonneg (by linarith [Int.floor_le q])]
    have := Int.lt_floor_add_one q
    linarith
  · rw [if_neg h, abs_of_nonpos (by linarith [Int.le_ceil q])]
    have := Int.ceil_lt_add_one q
    linarith

/-- For an in-range sample (strictly below 1) the truncated value stays in
the representable 16-bit range, so no wrap-around occurs. -/
theorem jsTrunc_in_range {x : ℚ} (h1 : -1 ≤ x) (h2 : x < 1) :
    -32768 ≤ jsTrunc (x * 32768) ∧ jsTrunc (x * 32768) ≤ 32767 := by
  have hy1 : (-32768 : ℚ) ≤ x * 32768 := by linarith
  have hy2 : x * 32768 < 32768 := by linarith
  unfold jsTrunc
  by_cases h : 0 ≤ x * 32768
  · rw [if_pos h]
    constructor
    · have : (0 : ℤ) ≤ ⌊x * 32768⌋ := Int.floor_nonneg.mpr h
      omega
    · have : ⌊x * 32768⌋ < (32768 : ℤ) := by
        rw [Int.floor_lt]
        exact_mod_cast hy2
      omega
  · rw [if_neg h]
    constructor
    · have : ((-32768 : ℤ) : ℚ) ≤ x * 32768 := by exact_mod_cast hy1
      exact_mod_cast this.trans (Int.le_ceil _)
    · have : ⌈x * 32768⌉ ≤ (0 : ℤ) := Int.ceil_le.mpr (by exact_mod_cast le_of_not_le h)
      omega

/-- Single-sample round trip error bound for samples in `[-1, 1)`. -/
theorem roundtrip_sample_bound {x : ℚ} (h1 : -1 ≤ x) (h2 : x < 1) :
    |x - (wrapInt16 (jsTrunc (x * 32768)) : ℚ) / 32768| ≤ 1 / 32768 := by
  obtain ⟨hr1, hr2⟩ := jsTrunc_in_range h1 h2
  rw [wrapInt16_eq_self hr1 hr2]
  have key : x - (jsTrunc (x * 32768) : ℚ) / 32768
      = (x * 32768 - (jsTrunc (x * 32768) : ℚ)) / 32768 := by ring
  rw [key, abs_div, abs_of_pos (by norm_num : (0:ℚ) < 32768)]
  have := abs_sub_jsTrunc_le (x * 32768)
  rw [div_le_div_iff₀ (by norm_num) (by norm_num)]
  linarith

/-! ### Live Session Manager state machine (`useGeminiLive`)

The observable behaviour of the hook is an event-driven machine.  Its state
collects the `connectionState` React state, whether the connection handle
(`sessionPromiseRef.current`) is non-null, the two turn-transcription
accumulators (`currentInputTranscription` / `currentOutputTranscription`),
and the playback scheduler data (`audioRefs.nextStartTime` and the number
of entries in `audioRefs.sources`).  Events are the public entry points
(`startSession`, `stopSession`, `sendAudioData`) together with the
transport callbacks (`onopen`, `onmessage`, `onerror`, `onclose`) and a
playback `ended` event of a source.  Each step returns the new state and the
list of side effects it fires, in program order. -/

inductive ConnState
  | idle | connecting | connected | error | disconnected
  deriving DecidableEq, Repr

/-- The per-hook-instance configuration: the `transcriptionOnly` flag and
whether the optional `onLiveTranscript` / `onApiKeyError` callbacks were
supplied. -/
structure Config where
  transcriptionOnly : Bool
  hasLiveTranscript : Bool
  hasApiKeyError : Bool
  deriving DecidableEq, Repr

/-- The fields of a `LiveServerMessage` that `onmessage` inspects:
optional output/input transcription fragment texts, the `turnComplete`
flag, the optional inline audio chunk (represented by its decoded
duration), and the `interrupted` flag. -/
structure ServerMessage where
  outputTranscription : Option String
  inputTranscription : Option String
  turnComplete : Bool
  audioDuration : Option ℚ
  interrupted : Bool
  deriving DecidableEq, Repr

structure HookState where
  connectionState : ConnState
  /-- Whether `sessionPromiseRef.current` is non-null. -/
  sessionActive : Bool
  currentInput : String
  currentOutput : String
  nextStartTime : ℚ
  /-- Size of the `audioRefs.sources` set. -/
  activeSources : ℕ
  deriving DecidableEq, Repr

/-- State of the hook on mount. -/
def initState : HookState :=
  { connectionState := .idle, sessionActive := false, currentInput := "",
    currentOutput := "", nextStartTime := 0, activeSources := 0 }

/-- Observable side effects, in the order the code fires them. -/
inductive Eff
  /-- Call of `ai.live.connect` — a transport connection is opened. -/
  | openConn
  /-- Close of the session requested (asynchronously) by `stopSession`. -/
  | closeRequest
  /-- Call of `session.sendRealtimeInput` with the PCM16 payload of the frame. -/
  | sendFrame (samples : List ℤ)
  /-- Invocation of `onTurnComplete` with the user and assistant texts. -/
  | turnCompleteCb (user assistant : String)
  /-- Invocation of `onLiveTranscript` with a fragment text. -/
  | liveTranscriptCb (text : String)
  /-- Invocation of `onAssistantSpeakingStateChange` with flag `b`. -/
  | speakingCb (b : Bool)
  /-- Invocation of `onApiKeyError`. -/
  | apiKeyErrorCb
  /-- Call of `sourceNode.start` at `startAt` — a playback buffer is scheduled. -/
  | scheduleAudio (startAt : ℚ)
  /-- Call of `source.stop` on an active playback source. -/
  | stopSource
  deriving DecidableEq, Repr

/-- Events driving the machine.  `startSession` carries the outcome of
the synchronous connection attempt (`none` = `ai.live.connect` is
reached; `some msg` = `getAiInstance()`/connect threw synchronously with
error message `msg`).  `message` carries the audio output clock reading
(`outputCtx.currentTime`) at processing time. -/
inductive Ev
  | startSession (connectError : Option String)
  | openAck
  | message (m : ServerMessage) (now : ℚ)
  | errorEvent (emsg : String)
  | closeAck
  | stopSession
  | sendAudioData (frame : List ℚ)
  | sourceEnded
  deriving DecidableEq, Repr

/-- Whitespace characters removed by JS `String.prototype.trim`
(the ASCII ones; the source never feeds the exotic Unicode spaces). -/
def isWsChar (c : Char) : Bool :=
  c == ' ' || c == '\t' || c == '\n' || c == '\r' || c == '\x0b' || c == '\x0c'

/-- Drop leading and trailing whitespace from a character list. -/
def trimChars (l : List Char) : List Char :=
  ((l.dropWhile isWsChar).reverse.dropWhile isWsChar).reverse

/-- JS `s.trim()`. -/
def jsTrim (s : String) : String := ⟨trimChars s.toList⟩

/-- The Playback Scheduler step (useGeminiLive.ts lines 192–207):
`nextStartTime = max(nextStartTime, currentTime)`, schedule at
`nextStartTime`, then `nextStartTime += duration`.  Returns
`(startAt, newNextStartTime)`. -/
def enqueueAudio (nextStartTime now dur : ℚ) : ℚ × ℚ :=
  let startAt := max nextStartTime now
  (startAt, startAt + dur)

/-- The `onmessage` callback (lines 166–221), in program order:
transcription dispatch, turn-complete flush, audio playback scheduling,
interruption handling. -/
def onmessage (cfg : Config) (s : HookState) (m : ServerMessage) (now : ℚ) :
    HookState × List Eff :=
  -- `if (outputTranscription) ... else if (inputTranscription) ...`
  let p1 : HookState × List Eff :=
    match m.outputTranscription with
    | some t => ({ s with currentOutput := s.currentOutput ++ t }, [])
    | none =>
      match m.inputTranscription with
      | some t =>
        ({ s with currentInput := s.currentInput ++ t },
         if cfg.hasLiveTranscript then [Eff.liveTranscriptCb t] else [])
      | none => (s, [])
  let s1 := p1.1
  -- `if (turnComplete) { onTurnComplete(trim, trim); clear both }`
  let p2 : HookState × List Eff :=
    if m.turnComplete then
      ({ s1 with currentInput := "", currentOutput := "" },
       [Eff.turnCompleteCb (jsTrim s1.currentInput) (jsTrim s1.currentOutput)])
    else (s1, [])
  let s2 := p2.1
  -- `if (!transcriptionOnly) { if (base64Audio && outputCtx) ... }`
  -- (the output context exists exactly when not in transcription-only mode)
  let p3 : HookState × List Eff :=
    if cfg.transcriptionOnly then (s2, [])
    else
      match m.audioDuration with
      | some d =>
        let q := enqueueAudio s2.nextStartTime now d
        ({ s2 with nextStartTime := q.2, activeSources := s2.activeSources + 1 },
         [Eff.speakingCb true, Eff.scheduleAudio q.1])
      | none => (s2, [])
  let s3 := p3.1
  -- `if (interrupted && !transcriptionOnly) { stop all; reset cursor }`
  let p4 : HookState × List Eff :=
    if m.interrupted && !cfg.transcriptionOnly then
      ({ s3 with activeSources := 0, nextStartTime := 0 },
       List.replicate s3.activeSources Eff.stopSource ++ [Eff.speakingCb false])
    else (s3, [])
  (p4.1, p1.2 ++ p2.2 ++ p3.2 ++ p4.2)

/-- The error-message marker `onerror` checks for (line 225). -/
def entityNotFoundMarker : String := "Requested entity was not found."

/-- One machine step.  The function is total: no event makes the hook
throw across its public boundary (every throwing path in the source is
wrapped in `try`/`catch` or a promise `.catch`). -/
def step (cfg : Config) (s : HookState) : Ev → HookState × List Eff
  | .startSession connectError =>
    -- `if (sessionPromiseRef.current) return;`
    if s.sessionActive then (s, [])
    else
      match connectError with
      | none =>
        -- setConnectionState(connecting); fresh transcription buffers;
        -- `ai.live.connect(...)`; `sessionPromiseRef.current = promise`.
        ({ s with connectionState := .connecting, sessionActive := true,
                  currentInput := "", currentOutput := "" },
         [Eff.openConn])
      | some emsg =>
        -- the catch block: setConnectionState(error); onApiKeyError
        -- when the message contains "API_KEY".
        ({ s with connectionState := .error,
                  currentInput := "", currentOutput := "" },
         if strContains emsg "API_KEY" && cfg.hasApiKeyError then
           [Eff.apiKeyErrorCb]
         else [])
  | .openAck =>
    -- onopen: setConnectionState(connected)
    ({ s with connectionState := .connected }, [])
  | .message m now => onmessage cfg s m now
  | .errorEvent emsg =>
    -- `onerror`: `onApiKeyError?.()` when the message contains the
    -- entity-not-found marker; always setConnectionState(error).
    ({ s with connectionState := .error },
     if !(emsg == "") && strContains emsg entityNotFoundMarker
        && cfg.hasApiKeyError then
       [Eff.apiKeyErrorCb]
     else [])
  | .closeAck =>
    -- onclose: clear the handle, setConnectionState(disconnected).
    ({ s with sessionActive := false, connectionState := .disconnected }, [])
  | .stopSession =>
    -- close the session if a handle exists; stop and clear all playback;
    -- reset the cursor; notify speaking `false`; state back to `idle`.
    ({ s with connectionState := .idle, nextStartTime := 0,
              activeSources := 0 },
     (if s.sessionActive then [Eff.closeRequest] else [])
       ++ List.replicate s.activeSources Eff.stopSource
       ++ [Eff.speakingCb false])
  | .sendAudioData frame =>
    -- the guard: return early unless connectionState is connected; then
    -- `sessionPromiseRef.current?.then(send)`.
    if s.connectionState = .connected then
      (s, if s.sessionActive then [Eff.sendFrame (floatToPcm16 frame)] else [])
    else (s, [])
  | .sourceEnded =>
    -- the `ended` listener: remove the source; if the set became empty,
    -- notify speaking `false`.
    ({ s with activeSources := s.activeSources - 1 },
     if s.activeSources - 1 = 0 then [Eff.speakingCb false] else [])

/-- Run a list of events, accumulating the effects in order. -/
def run (cfg : Config) : HookState → List Ev → HookState × List Eff
  | s, [] => (s, [])
  | s, e :: rest =>
    let p := step cfg s e
    let q := run cfg p.1 rest
    (q.1, p.2 ++ q.2)

/-- Number of transport `open` side effects in an effect trace. -/
def countOpens (l : List Eff) : ℕ :=
  l.countP (fun e => match e with | .openConn => true | _ => false)

/-- Number of close acknowledgments in an event list. -/
def countCloseAcks (l : List Ev) : ℕ :=
  l.countP (fun e => match e with | .closeAck => true | _ => false)

/-- One when the connection handle is held, else zero. -/
def activeBit (s : HookState) : ℕ := if s.sessionActive then 1 else 0

/-! ### Shared concrete scenario data -/

/-- A message carrying only an input-transcription fragment. -/
def inputMsg (t : String) : ServerMessage :=
  { outputTranscription := none, inputTranscription := some t,
    turnComplete := false, audioDuration := none, interrupted := false }

/-- A message carrying only an output-transcription fragment. -/
def outputMsg (t : String) : ServerMessage :=
  { outputTranscription := some t, inputTranscription := none,
    turnComplete := false, audioDuration := none, interrupted := false }

/-- A message carrying only the turn-complete signal. -/
def turnCompleteMsg : ServerMessage :=
  { outputTranscription := none, inputTranscription := none,
    turnComplete := true, audioDuration := none, interrupted := false }

/-- A message carrying only an inline audio chunk of duration `d`. -/
def audioMsg (d : ℚ) : ServerMessage :=
  { outputTranscription := none, inputTranscription := none,
    turnComplete := false, audioDuration := some d, interrupted := false }

/-- A message carrying both an output- and an input-transcription
fragment at once. -/
def bothMsg (o i : String) : ServerMessage :=
  { outputTranscription := some o, inputTranscription := some i,
    turnComplete := false, audioDuration := none, interrupted := false }

/-- A hook instance with audio playback enabled and both optional
observers registered. -/
def fullConfig : Config :=
  { transcriptionOnly := false, hasLiveTranscript := true,
    hasApiKeyError := true }

/-- The state right after a successful connect and open acknowledgment. -/
def connectedState : HookState :=
  { initState with connectionState := .connected, sessionActive := true }

/-! ### Open-count bookkeeping

Each step fires a transport `open` at most when it also takes the
connection handle, and the handle is released only by a close
acknowledgment; counting gives the single-connection invariant. -/

theorem countOpens_append (a b : List Eff) :
    countOpens (a ++ b) = countOpens a + countOpens b :=
  List.countP_append _ _ _

theorem countOpens_replicate_stop (n : ℕ) :
    countOpens (List.replicate n Eff.stopSource) = 0 := by
  induction n with
  | zero => rfl
  | succ k ih => simp [List.replicate_succ, countOpens, List.countP_cons, ih]

theorem countOpens_onmessage (cfg : Config) (s : HookState)
    (m : ServerMessage) (now : ℚ) :
    countOpens (onmessage cfg s m now).2 = 0 := by
  rcases cfg with ⟨tOnly, hl, ak⟩
  rcases m with ⟨o, i, tc, ad, ir⟩
  unfold onmessage
  cases o <;> cases i <;> cases tc <;> cases ad <;> cases ir <;>
    cases tOnly <;> cases hl <;>
    simp [countOpens, List.countP_append, List.countP_cons,
      countOpens_replicate_stop]

theorem sessionActive_onmessage (cfg : Config) (s : HookState)
    (m : ServerMessage) (now : ℚ) :
    (onmessage cfg s m now).1.sessionActive = s.sessionActive := by
  rcases cfg with ⟨tOnly, hl, ak⟩
  rcases m with ⟨o, i, tc, ad, ir⟩
  unfold onmessage
  cases o <;> cases i <;> cases tc <;> cases ad <;> cases ir <;>
    cases tOnly <;> cases hl <;> simp

/-- Per-step accounting: every transport `open` is paid for either by
taking the connection handle or by a preceding close acknowledgment. -/
theorem step_open_bound (cfg : Config) (s : HookState) (e : Ev) :
    countOpens (step cfg s e).2 + activeBit s ≤
      activeBit (step cfg s e).1 + countCloseAcks [e] := by
  cases e with
  | startSession connectError =>
    by_cases h : s.sessionActive
    · simp [step, h, countOpens, activeBit, countCloseAcks]
    · cases connectError with
      | none =>
        simp [step, h, countOpens, activeBit, countCloseAcks,
          List.countP_cons]
      | some emsg =>
        by_cases hk : strContains emsg "API_KEY" && cfg.hasApiKeyError <;>
          simp [step, h, hk, countOpens, activeBit, countCloseAcks,
            List.countP_cons]
  | openAck => simp [step, countOpens, activeBit, countCloseAcks]
  | message m now =>
    have h1 := countOpens_onmessage cfg s m now
    have h2 := sessionActive_onmessage cfg s m now
    simp [step, h1, activeBit, h2, countCloseAcks]
  | errorEvent emsg =>
    by_cases hk : !(emsg == "") && strContains emsg entityNotFoundMarker
        && cfg.hasApiKeyError <;>
      simp [step, hk, countOpens, activeBit, countCloseAcks,
        List.countP_cons]
  | closeAck =>
    by_cases h : s.sessionActive <;>
      simp [step, h, countOpens, activeBit, countCloseAcks, List.countP_cons]
  | stopSession =>
    by_cases h : s.sessionActive <;>
      simp [step, h, countOpens, activeBit, countCloseAcks,
        List.countP_append, List.countP_cons, countOpens_replicate_stop]
  | sendAudioData frame =>
    by_cases h : s.connectionState = .connected
    · by_cases ha : s.sessionActive <;>
        simp [step, h, ha, countOpens, activeBit, countCloseAcks,
          List.countP_cons]
    · simp [step, h, countOpens, activeBit, countCloseAcks]
  | sourceEnded =>
    by_cases h : s.activeSources - 1 = 0 <;>
      simp [step, h, countOpens, activeBit, countCloseAcks, List.countP_cons]

/-- Run-level accounting, by induction over the event list. -/
theorem run_open_bound (cfg : Config) :
    ∀ (evs : List Ev) (s : HookState),
      countOpens (run cfg s evs).2 + activeBit s ≤
        activeBit (run cfg s evs).1 + countCloseAcks evs := by
  intro evs
  induction evs with
  | nil => intro s; simp [run, countOpens, countCloseAcks]
  | cons e rest ih =>
    intro s
    have h1 := step_open_bound cfg s e
    have h2 := ih (step cfg s e).1
    have hsplit : run cfg s (e :: rest) =
        ((run cfg (step cfg s e).1 rest).1,
         (step cfg s e).2 ++ (run cfg (step cfg s e).1 rest).2) := rfl
    rw [hsplit]
    simp only [countOpens_append]
    have hc : countCloseAcks (e :: rest) = countCloseAcks [e] + countCloseAcks rest := by
      simp [countCloseAcks, List.countP_cons]
      omega
    rw [hc]
    omega

/-! ### Claims -/

/-- C1, counterexample: the no-op guard of `startSession` is the presence
of the connection handle, not the connection state.  After
`startSession(); onerror("boom")` the state is `error` — neither
`connecting` nor `connected` — yet a further `startSession()` opens no
connection and does not move the state to `connecting`, because the
handle from the first call is still held (`onerror` does not clear it).
This refutes the claim that a `startSession()` call in any state other
than `connecting`/`connected` opens a duplex connection and moves the
state to `connecting`. -/
theorem c1_counterexample :
    (run fullConfig initState
        [.startSession none, .errorEvent "boom"]).1.connectionState =
      ConnState.error ∧
    countOpens (step fullConfig
        (run fullConfig initState [.startSession none, .errorEvent "boom"]).1
        (.startSession none)).2 = 0 ∧
    (step fullConfig
        (run fullConfig initState [.startSession none, .errorEvent "boom"]).1
        (.startSession none)).1.connectionState ≠ ConnState.connecting := by
  decide

/-- C1 (amended): at most one streaming connection is open or pending per
hook instance.  A `startSession()` call made while the connection handle
is held — which covers the `connecting` and `connected` states — is a
no-op that opens no second connection; two consecutive `startSession()`
calls produce exactly one transport `open` side effect; a `startSession()`
call made while no handle is held opens a duplex connection and moves the
state to `connecting`, then to `connected` on the open acknowledgment;
and in every run from the mount state the number of `open` side effects
never exceeds the number of close acknowledgments plus one.  (The handle,
not the state, is the guard: after a transport error without a close, or
after `stopSession` before the close acknowledgment, the state is not
`connecting`/`connected` yet `startSession` remains a no-op.) -/
theorem c1_single_connection :
    (∀ (cfg : Config) (s : HookState) (e : Option String),
        s.sessionActive = true → step cfg s (.startSession e) = (s, [])) ∧
    (∀ (cfg : Config) (s : HookState),
        s.sessionActive = false →
          step cfg s (.startSession none) =
            ({ s with connectionState := .connecting, sessionActive := true,
                      currentInput := "", currentOutput := "" },
             [Eff.openConn])) ∧
    (∀ (cfg : Config) (s : HookState),
        (step cfg s .openAck).1.connectionState = .connected) ∧
    (∀ cfg : Config,
        countOpens (run cfg initState
          [.startSession none, .startSession none]).2 = 1) ∧
    (∀ (cfg : Config) (evs : List Ev),
        countOpens (run cfg initState evs).2 ≤ countCloseAcks evs + 1) := by
  refine ⟨?_, ?_, ?_, ?_, ?_⟩
  · intro cfg s e h; simp [step, h]
  · intro cfg s h; simp [step, h]
  · intro cfg s; simp [step]
  · intro cfg
    simp [run, step, initState, countOpens, List.countP_cons,
      countOpens_append]
  · intro cfg evs
    have h := run_open_bound cfg evs initState
    have hb : activeBit (run cfg initState evs).1 ≤ 1 := by
      unfold activeBit; split <;> omega
    have h0 : activeBit initState = 0 := rfl
    omega

/-- C1 witness: in the connected state the handle is held, and a
`startSession()` call is a no-op with no side effect. -/
theorem c1_single_connection_witness :
    connectedState.sessionActive = true ∧
    step fullConfig connectedState (.startSession none) =
      (connectedState, []) :=
  ⟨rfl, c1_single_connection.1 fullConfig connectedState none rfl⟩

/-- C2: each inbound audio fragment is scheduled to start at
`max(nextStartTime, outputClockNow)` and the cursor then advances by the
fragment duration; consequently three fragments of durations `d1, d2, d3`
enqueued at clock readings `t1 ≤ t2 ≤ t3` all strictly below `d1` are
scheduled at `t1, t1 + d1, t1 + d1 + d2` — cumulative offsets
`0, d1, d1 + d2` from the first start (absolute `0, d1, d1 + d2` when the
clock reads `0` at the first enqueue), so consecutive buffers neither
overlap nor leave a gap; in the exact rational model the gap is zero. -/
theorem c2_gapless_scheduling :
    (∀ (cfg : Config) (s : HookState) (now d : ℚ),
        cfg.transcriptionOnly = false →
          step cfg s (.message (audioMsg d) now) =
            ({ s with nextStartTime := max s.nextStartTime now + d,
                      activeSources := s.activeSources + 1 },
             [Eff.speakingCb true,
              Eff.scheduleAudio (max s.nextStartTime now)])) ∧
    (∀ (t1 t2 t3 d1 d2 d3 : ℚ),
        0 ≤ t1 → t1 ≤ t2 → t2 ≤ t3 → t3 < d1 → 0 ≤ d2 →
          (run fullConfig connectedState
            [.message (audioMsg d1) t1, .message (audioMsg d2) t2,
             .message (audioMsg d3) t3]).2 =
          [Eff.speakingCb true, Eff.scheduleAudio t1,
           Eff.speakingCb true, Eff.scheduleAudio (t1 + d1),
           Eff.speakingCb true, Eff.scheduleAudio (t1 + d1 + d2)]) := by
  constructor
  · intro cfg s now d h
    simp [step, onmessage, audioMsg, enqueueAudio, h]
  · intro t1 t2 t3 d1 d2 d3 h0 h12 h23 h31 hd2
    have m1 : max (0 : ℚ) t1 = t1 := max_eq_right h0
    have m2 : max (t1 + d1) t2 = t1 + d1 := max_eq_left (by linarith)
    have m3 : max (t1 + d1 + d2) t3 = t1 + d1 + d2 := max_eq_left (by linarith)
    simp [run, step, onmessage, audioMsg, enqueueAudio, connectedState,
      initState, fullConfig, m1, m2, m3]

/-- C2 witness: three fragments of durations `1, 2, 5` all enqueued while
the output clock reads `0` are scheduled at the cumulative offsets
`0, 0 + 1, 0 + 1 + 2`. -/
theorem c2_gapless_scheduling_witness :
    ((0:ℚ) ≤ 0 ∧ (0:ℚ) ≤ 0 ∧ (0:ℚ) ≤ 0 ∧ (0:ℚ) < 1 ∧ (0:ℚ) ≤ 2) ∧
    (run fullConfig connectedState
        [.message (audioMsg 1) 0, .message (audioMsg 2) 0,
         .message (audioMsg 5) 0]).2 =
      [Eff.speakingCb true, Eff.scheduleAudio 0,
       Eff.speakingCb true, Eff.scheduleAudio (0 + 1),
       Eff.speakingCb true, Eff.scheduleAudio (0 + 1 + 2)] :=
  ⟨by norm_num,
   c2_gapless_scheduling.2 0 0 0 1 2 5 le_rfl le_rfl le_rfl
     (by norm_num) (by norm_num)⟩

/-- C3, counterexample: the sample value `1`, which lies in `[-1, 1]`,
is multiplied to `32768`, truncated, and wrapped with no clamping to
`-32768`, so the round trip returns `-1`: the per-sample error is `2`,
far above `1/32768`. -/
theorem c3_counterexample :
    (-1 ≤ (1:ℚ) ∧ (1:ℚ) ≤ 1) ∧
    pcm16ToFloat (floatToPcm16 [(1:ℚ)]) = [(-1:ℚ)] ∧
    ¬ |(1:ℚ) - (-1:ℚ)| ≤ 1 / 32768 := by
  refine ⟨by norm_num, ?_, by norm_num⟩
  have h2 : jsTrunc ((32768:ℚ)) = 32768 := by
    unfold jsTrunc
    rw [if_pos (by norm_num),
      (by norm_num : (32768:ℚ) = ((32768:ℤ) : ℚ)), Int.floor_intCast]
  have h3 : wrapInt16 32768 = -32768 := by unfold wrapInt16; omega
  simp [pcm16ToFloat, floatToPcm16, h2, h3]

/-- C3 (amended): for every array of samples with values in `[-1, 1)` —
strictly below `1`, since `1` itself wraps — the round trip
`pcm16ToFloat (floatToPcm16 x)` differs from `x` by no more than
`1/32768` per sample. -/
theorem c3_roundtrip_bound (xs : List ℚ)
    (h : ∀ x ∈ xs, -1 ≤ x ∧ x < 1) :
    List.Forall₂ (fun x y => |x - y| ≤ 1 / 32768) xs
      (pcm16ToFloat (floatToPcm16 xs)) := by
  induction xs with
  | nil => exact List.Forall₂.nil
  | cons a rest ih =>
    have ha := h a (by simp)
    refine List.Forall₂.cons ?_ (ih (fun x hx => h x (by simp [hx])))
    exact roundtrip_sample_bound ha.1 ha.2

/-- C3 witness: the amended bound applied to the two-sample array
`[1/2, -1]`. -/
theorem c3_roundtrip_bound_witness :
    (∀ x ∈ [(1:ℚ)/2, -1], -1 ≤ x ∧ x < 1) ∧
    List.Forall₂ (fun x y => |x - y| ≤ 1 / 32768) [(1:ℚ)/2, -1]
      (pcm16ToFloat (floatToPcm16 [(1:ℚ)/2, -1])) :=
  ⟨by norm_num, c3_roundtrip_bound [(1:ℚ)/2, -1] (by norm_num)⟩

/-- C4: a `sendAudioData` call made while the connection state is not
exactly `connected` (in particular while `idle` or `connecting`) invokes
no transport send, fires no effect at all, leaves the state unchanged,
and returns normally — the frame is silently dropped, never queued. -/
theorem c4_send_dropped_when_not_connected (cfg : Config) (s : HookState)
    (frame : List ℚ) (h : s.connectionState ≠ ConnState.connected) :
    step cfg s (.sendAudioData frame) = (s, []) := by
  simp [step, h]

/-- C4 witness: a frame sent in the mount (`idle`) state is dropped. -/
theorem c4_send_dropped_when_not_connected_witness :
    initState.connectionState ≠ ConnState.connected ∧
    step fullConfig initState (.sendAudioData [0]) = (initState, []) :=
  ⟨by decide, c4_send_dropped_when_not_connected fullConfig initState [0]
    (by decide)⟩

/-- C5: appending a transcription fragment is plain string concatenation
on the matching accumulator; a turn-complete message returns the
whitespace-trimmed accumulated user and assistant strings through the
turn-complete callback and resets both accumulators to empty; and the
concrete scenario — user fragments "Hel", "lo ", assistant fragments
"Hi", " there", then two consecutive turn-complete signals — yields
`("Hello", "Hi there")` and then `("", "")` without error. -/
theorem c5_turn_accumulation_flush :
    (∀ (cfg : Config) (s : HookState) (t : String) (now : ℚ),
        step cfg s (.message (inputMsg t) now) =
          ({ s with currentInput := s.currentInput ++ t },
           if cfg.hasLiveTranscript then [Eff.liveTranscriptCb t] else [])) ∧
    (∀ (cfg : Config) (s : HookState) (t : String) (now : ℚ),
        step cfg s (.message (outputMsg t) now) =
          ({ s with currentOutput := s.currentOutput ++ t }, [])) ∧
    (∀ (cfg : Config) (s : HookState) (now : ℚ),
        step cfg s (.message turnCompleteMsg now) =
          ({ s with currentInput := "", currentOutput := "" },
           [Eff.turnCompleteCb (jsTrim s.currentInput)
              (jsTrim s.currentOutput)])) ∧
    ((run fullConfig connectedState
        [.message (inputMsg "Hel") 0, .message (inputMsg "lo ") 0,
         .message (outputMsg "Hi") 0, .message (outputMsg " there") 0,
         .message turnCompleteMsg 0, .message turnCompleteMsg 0]).2 =
      [Eff.liveTranscriptCb "Hel", Eff.liveTranscriptCb "lo ",
       Eff.turnCompleteCb "Hello" "Hi there",
       Eff.turnCompleteCb "" ""]) := by
  refine ⟨?_, ?_, ?_, by decide⟩
  · intro cfg s t now; simp [step, onmessage, inputMsg]
  · intro cfg s t now; simp [step, onmessage, outputMsg]
  · intro cfg s now; simp [step, onmessage, turnCompleteMsg]

/-! ### Session consumer (`handleTurnComplete` in Session.tsx, lines 68–78)

The UI component receiving completed turns ignores an all-empty pair and
otherwise appends one chat message per non-empty side. -/

inductive Role
  | user | assistant
  deriving DecidableEq, Repr

structure ChatMessage where
  role : Role
  content : String
  deriving DecidableEq, Repr

/-- Messages that `handleTurnComplete` appends to the transcript for a
completed `(userText, assistantText)` pair; the early return on an
all-empty pair appends nothing. -/
def handleTurnComplete (userText assistantText : String) : List ChatMessage :=
  if userText == "" && assistantText == "" then []
  else
    (if userText == "" then [] else [{ role := .user, content := userText }])
      ++ (if assistantText == "" then []
          else [{ role := .assistant, content := assistantText }])

/-- C6, counterexample: when the server signals turn completion with both
accumulators empty, the hook still invokes the turn-complete callback —
with the empty pair — rather than suppressing it. -/
theorem c6_counterexample :
    connectedState.currentInput = "" ∧ connectedState.currentOutput = "" ∧
    (step fullConfig connectedState (.message turnCompleteMsg 0)).2 =
      [Eff.turnCompleteCb "" ""] := by
  refine ⟨rfl, rfl, ?_⟩
  simp [step, onmessage, turnCompleteMsg, connectedState, initState, jsTrim,
    trimChars]

/-- C6 (amended): when the server signals turn completion and both
accumulated transcription buffers are empty, the hook invokes the
turn-complete callback with the empty pair `("", "")`; no turn reaches
the conversation transcript because the session consumer drops an
all-empty pair. -/
theorem c6_empty_turn_reaches_no_transcript :
    (∀ (cfg : Config) (s : HookState) (now : ℚ),
        s.currentInput = "" → s.currentOutput = "" →
          (step cfg s (.message turnCompleteMsg now)).2 =
            [Eff.turnCompleteCb "" ""]) ∧
    handleTurnComplete "" "" = [] := by
  constructor
  · intro cfg s now h1 h2
    simp [step, onmessage, turnCompleteMsg, h1, h2, jsTrim, trimChars]
  · rfl

/-- C6 witness: the empty-buffers flush in the connected state. -/
theorem c6_empty_turn_reaches_no_transcript_witness :
    (connectedState.currentInput = "" ∧ connectedState.currentOutput = "") ∧
    (step fullConfig connectedState (.message turnCompleteMsg 0)).2 =
      [Eff.turnCompleteCb "" ""] :=
  ⟨⟨rfl, rfl⟩,
   c6_empty_turn_reaches_no_transcript.1 fullConfig connectedState 0 rfl rfl⟩

/-- C7, counterexample: a message that carries both an
output-transcription and an input-transcription fragment takes only the
output branch of the `else if` chain: the input fragment "I" is neither
appended to the user accumulator nor forwarded to the live-transcript
observer (no effect fires at all). -/
theorem c7_counterexample :
    (bothMsg "O" "I").inputTranscription = some "I" ∧
    (step fullConfig connectedState (.message (bothMsg "O" "I") 0)).1.currentInput = "" ∧
    (step fullConfig connectedState (.message (bothMsg "O" "I") 0)).2 = [] := by
  refine ⟨rfl, ?_, ?_⟩ <;>
    simp [step, onmessage, bothMsg, connectedState, initState]

/-- C7 (amended): an input-transcription fragment is appended to the user
accumulator and forwarded to the live-partial-transcript observer exactly
when the same message carries no output-transcription fragment; when both
are present the output fragment wins and the input fragment is dropped
(neither appended nor forwarded). -/
theorem c7_input_fragment_dispatch :
    (∀ (cfg : Config) (s : HookState) (t : String) (now : ℚ),
        cfg.hasLiveTranscript = true →
          step cfg s (.message (inputMsg t) now) =
            ({ s with currentInput := s.currentInput ++ t },
             [Eff.liveTranscriptCb t])) ∧
    (∀ (cfg : Config) (s : HookState) (o t : String) (now : ℚ),
        step cfg s (.message (bothMsg o t) now) =
          ({ s with currentOutput := s.currentOutput ++ o }, [])) := by
  constructor
  · intro cfg s t now h
    simp [step, onmessage, inputMsg, h]
  · intro cfg s o t now
    simp [step, onmessage, bothMsg]

/-- C7 witness: a lone input fragment "I" in the connected state is
appended and forwarded. -/
theorem c7_input_fragment_dispatch_witness :
    fullConfig.hasLiveTranscript = true ∧
    step fullConfig connectedState (.message (inputMsg "I") 0) =
      ({ connectedState with
          currentInput := connectedState.currentInput ++ "I" },
       [Eff.liveTranscriptCb "I"]) :=
  ⟨rfl, c7_input_fragment_dispatch.1 fullConfig connectedState "I" 0 rfl⟩

/-- C8: `stopSession` is total on every state (never throws): it requests
the transport close exactly when a connection handle exists — without
clearing the handle or moving to `disconnected`, which happens only on
the close acknowledgment — force-stops every active playback source,
clears the active set, resets the scheduling cursor to zero, notifies the
speaking-state observer `false`, and synchronously resets the connection
state to `idle`; from the mount (`idle`) state it leaves the state
unchanged (a no-op that does not throw). -/
theorem c8_stop_session_safe :
    (∀ (cfg : Config) (s : HookState),
        step cfg s .stopSession =
          ({ s with connectionState := .idle, nextStartTime := 0,
                    activeSources := 0 },
           (if s.sessionActive then [Eff.closeRequest] else [])
             ++ List.replicate s.activeSources Eff.stopSource
             ++ [Eff.speakingCb false])) ∧
    (∀ (cfg : Config) (s : HookState),
        (step cfg s .stopSession).1.sessionActive = s.sessionActive) ∧
    (∀ (cfg : Config) (s : HookState),
        (step cfg s .closeAck).1.connectionState = .disconnected ∧
        (step cfg s .closeAck).1.sessionActive = false) ∧
    (∀ cfg : Config, step cfg initState .stopSession =
        (initState, [Eff.speakingCb false])) := by
  refine ⟨?_, ?_, ?_, ?_⟩
  · intro cfg s; rfl
  · intro cfg s; rfl
  · intro cfg s; exact ⟨rfl, rfl⟩
  · intro cfg; rfl

/-- C9: an inbound error event whose message contains the
"Requested entity was not found." marker invokes the credential-error
observer AND still transitions the connection state to `error` — the
dedicated callback fires in addition to, not instead of, the generic
error-state transition. -/
theorem c9_credential_error_routing (cfg : Config) (s : HookState)
    (emsg : String) (hk : cfg.hasApiKeyError = true)
    (hm : strContains emsg entityNotFoundMarker = true) :
    step cfg s (.errorEvent emsg) =
      ({ s with connectionState := .error }, [Eff.apiKeyErrorCb]) := by
  have hne : (emsg == "") = false := by
    by_cases he : emsg = ""
    · subst he; exact absurd hm (by decide)
    · exact beq_eq_false_iff_ne.mpr he
  simp [step, hne, hm, hk]

/-- C9 witness: the marker text itself routed through `onerror` in the
connected state. -/
theorem c9_credential_error_routing_witness :
    (fullConfig.hasApiKeyError = true ∧
     strContains "Requested entity was not found." entityNotFoundMarker
       = true) ∧
    step fullConfig connectedState
        (.errorEvent "Requested entity was not found.") =
      ({ connectedState with connectionState := .error },
       [Eff.apiKeyErrorCb]) :=
  ⟨⟨rfl, by decide⟩,
   c9_credential_error_routing fullConfig connectedState
     "Requested entity was not found." rfl (by decide)⟩

/-! ### getAiInstance (`geminiService.ts`, lines 23–43) -/

/-- Environment of `getAiInstance`: whether the module-global client is
already cached, and the value of `process.env.API_KEY`. -/
structure GenEnv where
  aiInstanceCached : Bool
  apiKey : Option String
  deriving DecidableEq, Repr

/-- Exact message of the error thrown when no API key is configured. -/
def apiKeyErrMsg : String :=
  "API_KEY environment variable is not set or accessible in this environment."

/-- Lazily-initialized client accessor: returns the cached instance if
present; otherwise throws when the key is missing (or empty — JS
falsiness), else constructs and returns a client. -/
def getAiInstance (env : GenEnv) : Except String Unit :=
  if env.aiInstanceCached then .ok ()
  else
    match env.apiKey with
    | none => .error apiKeyErrMsg
    | some k => if k == "" then .error apiKeyErrMsg else .ok ()

/-- C10: a synchronous failure inside `startSession` (for example
`getAiInstance` throwing because no API key is configured) does not
propagate across the `startSession` boundary: the step returns normally
with the connection state set to `error`, and when the thrown message
contains "API_KEY" — as the no-key message of `getAiInstance` does — the
credential-error observer is additionally invoked. -/
theorem c10_sync_connect_failure :
    (∀ (cfg : Config) (s : HookState) (emsg : String),
        s.sessionActive = false →
          step cfg s (.startSession (some emsg)) =
            ({ s with connectionState := .error, currentInput := "",
                      currentOutput := "" },
             if strContains emsg "API_KEY" && cfg.hasApiKeyError then
               [Eff.apiKeyErrorCb]
             else [])) ∧
    getAiInstance { aiInstanceCached := false, apiKey := none } =
      .error apiKeyErrMsg ∧
    strContains apiKeyErrMsg "API_KEY" = true ∧
    (∀ (cfg : Config) (s : HookState),
        s.sessionActive = false → cfg.hasApiKeyError = true →
          (step cfg s (.startSession (some apiKeyErrMsg))).1.connectionState
              = .error ∧
          (step cfg s (.startSession (some apiKeyErrMsg))).2 =
            [Eff.apiKeyErrorCb]) := by
  have hc : strContains apiKeyErrMsg "API_KEY" = true := by decide
  refine ⟨?_, rfl, hc, ?_⟩
  · intro cfg s emsg h
    simp [step, h]
  · intro cfg s h1 h2
    constructor <;> simp [step, h1, h2, hc]

/-- C10 witness: the no-key failure from the mount state sets `error`
and fires the credential-error observer. -/
theorem c10_sync_connect_failure_witness :
    (initState.sessionActive = false ∧ fullConfig.hasApiKeyError = true) ∧
    (step fullConfig initState
        (.startSession (some apiKeyErrMsg))).1.connectionState
      = ConnState.error ∧
    (step fullConfig initState (.startSession (some apiKeyErrMsg))).2 =
      [Eff.apiKeyErrorCb] :=
  ⟨⟨rfl, rfl⟩, c10_sync_connect_failure.2.2.2 fullConfig initState rfl rfl⟩

end LidiaLive
